import Mathlib

/-!
Verification of the shader subsystem of the `go-allegro` binding
(`allegro/shader.go`) against its natural-language specification.

The Go code is a thin cgo layer: every exported operation validates its
arguments, optionally marshals them into native memory, performs exactly one
native Allegro call, and maps the native boolean result to a Go `error`.
The embedding below makes the native side an explicit oracle (`Env`) and
records every native call and every scratch-buffer allocation/release in an
event trace, so that claims about call arguments, call counts and buffer
lifetime become statements about that trace.

Modelling conventions:
  - a Go pointer (`*Shader`, `*Bitmap`, `*Transform`) is `Option Nat`
    (`none` = nil, `some h` = an opaque native handle);
  - a Go `error` result is `Option Err` (`none` = nil error);
  - Go `float32` is an opaque type parameter `F` (the code never inspects
    float values, it only stores and forwards them; `C.float` on a
    `float32` is value-preserving);
  - Go `int` is `Int`; the cgo conversion `C.int(x)` is the explicit
    signed 32-bit truncation `toInt32`;
  - `malloc` may fail (return nil), decided by the oracle from the
    requested byte count; scratch-buffer cells start uninitialized
    (`none`), since `malloc` does not zero memory.
-/

namespace Allegro

/-- Signed 32-bit truncation: the value of the cgo conversion `C.int(x)`
applied to a (64-bit) Go integer `x` — reduce modulo 2^32 into the
representable range [-2^31, 2^31). -/
def toInt32 (x : Int) : Int :=
  let m := x % (2 ^ 32 : Int)
  if m < 2 ^ 31 then m else m - 2 ^ 32

/- Shader variable names (shader.go lines 12-22). -/

/-- Reserved uniform name for the vertex color (shader.go:13). -/
def SHADER_VAR_COLOR : String := "al_color"

/-- Reserved uniform name for the vertex position (shader.go:14). -/
def SHADER_VAR_POS : String := "al_pos"

/-- Reserved uniform name for the projection-view matrix (shader.go:15). -/
def SHADER_VAR_PROJVIEW_MATRIX : String := "al_projview_matrix"

/-- Reserved uniform name for the texture (shader.go:16). -/
def SHADER_VAR_TEX : String := "al_tex"

/-- Reserved uniform name for the texture coordinates (shader.go:17). -/
def SHADER_VAR_TEXCOORD : String := "al_texcoord"

/-- Reserved uniform name for the texture matrix (shader.go:18). -/
def SHADER_VAR_TEX_MATRIX : String := "al_tex_matrix"

/-- Reserved prefix for user-defined attributes (shader.go:19). -/
def SHADER_VAR_USER_ATTR : String := "al_user_attr_"

/-- Reserved uniform name for the use-texture flag (shader.go:20). -/
def SHADER_VAR_USE_TEX : String := "al_use_tex"

/-- Reserved uniform name for the use-texture-matrix flag (shader.go:21). -/
def SHADER_VAR_USE_TEX_MATRIX : String := "al_use_tex_matrix"

/-- Go `error` values produced by the shader subsystem. `errMsg s` models an
error built by `errors.New`/`fmt.Errorf` with message `s`. `bitmapIsNull`
models the package-level `BitmapIsNull` sentinel returned by
`SetShaderSampler` for a nil bitmap. Modelled from the spec: `BitmapIsNull`
is declared in the binding's bitmap source file, which is outside the
shader source under study; the spec only requires it to be a distinct
"null texture" condition, so it is a separate constructor whose message is
left abstract. -/
inductive Err : Type where
  | bitmapIsNull : Err
  | errMsg : String → Err
deriving DecidableEq

/-- The package-level sentinel `ShaderIsNull = errors.New("shader is null")`
(shader.go:24-26). -/
def ShaderIsNull : Err := Err.errMsg "shader is null"

/-- One observable native-side event: a scratch-buffer allocation attempt
(with the requested byte count and whether it succeeded), a scratch-buffer
release, or one native Allegro call with the arguments the Go code passes.
A native buffer pointer argument is `none` for a nil pointer, otherwise
`some` of the buffer contents (cells are `none` while uninitialized). -/
inductive Ev (F : Type) : Type where
  | allocScratch (bytes : Nat) (ok : Bool)
  | freeScratch
  | callAttachSource (handle : Nat) (stype : Int) (source : String)
  | callAttachSourceFile (handle : Nat) (stype : Int) (filename : String)
  | callBuildShader (handle : Nat)
  | callGetShaderLog (handle : Nat)
  | callGetShaderPlatform (handle : Nat)
  | callUseShader (shader : Option Nat)
  | callDestroyShader (shader : Option Nat)
  | callSetSampler (name : String) (bmp : Nat) (unit : Int)
  | callSetMatrix (name : String) (matrix : Option Nat)
  | callSetInt (name : String) (i : Int)
  | callSetFloat (name : String) (f : F)
  | callSetBool (name : String) (b : Bool)
  | callSetIntVector (name : String) (components : Int)
      (buf : Option (List (Option Int))) (elems : Int)
  | callSetFloatVector (name : String) (components : Int)
      (buf : Option (List (Option F))) (elems : Int)
deriving DecidableEq

/-- Oracle for the native side: for each native primitive, whether the call
with the given arguments reports success, plus the results of the two
value-returning primitives, and whether `malloc` of a given byte count
succeeds (returns non-nil). -/
structure Env (F : Type) : Type where
  malloc : Nat → Bool
  al_attach_shader_source : Nat → Int → String → Bool
  al_attach_shader_source_file : Nat → Int → String → Bool
  al_build_shader : Nat → Bool
  al_get_shader_log : Nat → String
  al_get_shader_platform : Nat → Int
  al_use_shader : Option Nat → Bool
  al_set_shader_sampler : String → Nat → Int → Bool
  al_set_shader_matrix : String → Option Nat → Bool
  al_set_shader_int : String → Int → Bool
  al_set_shader_float : String → F → Bool
  al_set_shader_bool : String → Bool → Bool
  al_set_shader_int_vector : String → Int → Option (List (Option Int)) → Int → Bool
  al_set_shader_float_vector : String → Int → Option (List (Option F)) → Int → Bool

variable {F : Type}

/-- Embedding of `(*Shader).AttachSource` (shader.go:53-67): nil receiver
fails fast with `ShaderIsNull` and no native call; otherwise one native
`al_attach_shader_source` call, whose failure yields the attach error. -/
def AttachSource (env : Env F) (s : Option Nat) (stype : Int) (source : String) :
    Option Err × List (Ev F) :=
  match s with
  | none => (some ShaderIsNull, [])
  | some h =>
      (if env.al_attach_shader_source h stype source then none
       else some (.errMsg "failed to attach shader source"),
       [.callAttachSource h stype source])

/-- Embedding of `(*Shader).AttachSourceFile` (shader.go:69-83): nil receiver
fails fast; otherwise one native call, whose failure yields an error whose
message carries the filename. -/
def AttachSourceFile (env : Env F) (s : Option Nat) (stype : Int) (filename : String) :
    Option Err × List (Ev F) :=
  match s with
  | none => (some ShaderIsNull, [])
  | some h =>
      (if env.al_attach_shader_source_file h stype filename then none
       else some (.errMsg ("failed to attach shader source file \"" ++ filename ++ "\"")),
       [.callAttachSourceFile h stype filename])

/-- Embedding of `(*Shader).Build` (shader.go:85-96). -/
def Build (env : Env F) (s : Option Nat) : Option Err × List (Ev F) :=
  match s with
  | none => (some ShaderIsNull, [])
  | some h =>
      (if env.al_build_shader h then none else some (.errMsg "failed to build shader"),
       [.callBuildShader h])

/-- Embedding of `(*Shader).Log` (shader.go:98-105): returns the Go pair
(string, error). -/
def Log (env : Env F) (s : Option Nat) : (String × Option Err) × List (Ev F) :=
  match s with
  | none => (("", some ShaderIsNull), [])
  | some h => ((env.al_get_shader_log h, none), [.callGetShaderLog h])

/-- Embedding of `(*Shader).Platform` (shader.go:107-114): returns the Go
pair (ShaderPlatform, error), the platform being an opaque integer tag. -/
def Platform (env : Env F) (s : Option Nat) : (Int × Option Err) × List (Ev F) :=
  match s with
  | none => ((0, some ShaderIsNull), [])
  | some h => ((env.al_get_shader_platform h, none), [.callGetShaderPlatform h])

/-- Embedding of `UseShader` (shader.go:116-123): no nil check — the shader
argument (nil included, meaning deactivation) is passed straight to the
native call. -/
def UseShader (env : Env F) (s : Option Nat) : Option Err × List (Ev F) :=
  (if env.al_use_shader s then none else some (.errMsg "failed to use shader"),
   [.callUseShader s])

/-- Embedding of `(*Shader).Destroy` (shader.go:125-127): no nil check, no
return value; the native destroy call is made unconditionally. -/
def Destroy (s : Option Nat) : List (Ev F) :=
  [.callDestroyShader s]

/-- Embedding of `SetShaderSampler` (shader.go:129-143): nil bitmap fails
fast with the `BitmapIsNull` sentinel and no native call; otherwise one
native call with the unit index converted by `C.int`. -/
def SetShaderSampler (env : Env F) (name : String) (bmp : Option Nat) (unit : Int) :
    Option Err × List (Ev F) :=
  match bmp with
  | none => (some .bitmapIsNull, [])
  | some b =>
      (if env.al_set_shader_sampler name b (toInt32 unit) then none
       else some (.errMsg ("failed to set shader sampler for \"" ++ name ++ "\"")),
       [.callSetSampler name b (toInt32 unit)])

/-- Embedding of `SetShaderMatrix` (shader.go:145-155): the transform pointer
is forwarded unchecked. -/
def SetShaderMatrix (env : Env F) (name : String) (matrix : Option Nat) :
    Option Err × List (Ev F) :=
  (if env.al_set_shader_matrix name matrix then none
   else some (.errMsg ("failed to set shader matrix for \"" ++ name ++ "\"")),
   [.callSetMatrix name matrix])

/-- Embedding of `SetShaderInt` (shader.go:157-167). -/
def SetShaderInt (env : Env F) (name : String) (i : Int) : Option Err × List (Ev F) :=
  (if env.al_set_shader_int name (toInt32 i) then none
   else some (.errMsg ("failed to set shader int for \"" ++ name ++ "\"")),
   [.callSetInt name (toInt32 i)])

/-- Embedding of `SetShaderFloat` (shader.go:169-179). -/
def SetShaderFloat (env : Env F) (name : String) (f : F) : Option Err × List (Ev F) :=
  (if env.al_set_shader_float name f then none
   else some (.errMsg ("failed to set shader float for \"" ++ name ++ "\"")),
   [.callSetFloat name f])

/-- Embedding of `SetShaderBool` (shader.go:255-265). -/
def SetShaderBool (env : Env F) (name : String) (b : Bool) : Option Err × List (Ev F) :=
  (if env.al_set_shader_bool name b then none
   else some (.errMsg ("failed to set shader bool for \"" ++ name ++ "\"")),
   [.callSetBool name b])

/-- Embedding of the nested marshaling loop shared by `SetShaderIntVector`
and `SetShaderFloatVector` (shader.go:200-206 and 237-243): the fold state
is the pair (writes so far, idx); each element of each row, in order,
produces one write of the converted scalar at the current idx, after which
idx is incremented — row boundaries play no role. `conv` is the Go-to-C
scalar conversion (`C.int` for ints, the identity for float32). -/
def marshalLoop {α β : Type} (conv : α → β) (rows : List (List α)) : List (Nat × β) :=
  (rows.foldl
    (fun acc slice => slice.foldl (fun a e => (a.1 ++ [(a.2, conv e)], a.2 + 1)) acc)
    (([] : List (Nat × β)), 0)).1

/-- Apply a list of indexed writes to a scratch buffer whose cells are
`Option β` (`none` = still uninitialized). A write beyond the end of the
buffer is dropped here (`List.set` is out-of-range tolerant); in the C
memory it would land outside the allocation, and the theorems below track
exactly when that happens. -/
def applyWrites {β : Type} (init : List (Option β)) (ws : List (Nat × β)) :
    List (Option β) :=
  ws.foldl (fun b w => b.set w.1 (some w.2)) init

/-- Embedding of `SetShaderIntVector` (shader.go:181-216). Empty input makes
the clearing call `(name, 0, nil, 0)` directly. Otherwise a scratch buffer
of `len(i) * len(i[0])` C ints (4 bytes each) is allocated — allocation
failure is an early error with no native call — filled by `marshalLoop`,
passed to the native call, and released after it (the Go `defer free`). -/
def SetShaderIntVector (env : Env F) (name : String) (i : List (List Int)) :
    Option Err × List (Ev F) :=
  if i.length = 0 then
    (if env.al_set_shader_int_vector name 0 none 0 then none
     else some (.errMsg ("failed to set int vector for \"" ++ name ++ "\"")),
     [.callSetIntVector name 0 none 0])
  else
    let elems := i.length
    let components := i.headI.length
    let bytes := elems * components * 4
    if env.malloc bytes then
      let buf := applyWrites (List.replicate (elems * components) none) (marshalLoop toInt32 i)
      (if env.al_set_shader_int_vector name (toInt32 components) (some buf) (toInt32 elems)
       then none
       else some (.errMsg ("failed to set int vector for \"" ++ name ++ "\"")),
       [.allocScratch bytes true,
        .callSetIntVector name (toInt32 components) (some buf) (toInt32 elems),
        .freeScratch])
    else
      (some (.errMsg "failed to allocate int vector"), [.allocScratch bytes false])

/-- Embedding of `SetShaderFloatVector` (shader.go:218-253): the same
algorithm as `SetShaderIntVector` with float scalars (4-byte C floats, the
conversion `C.float` being value-preserving on `float32`) and the float
native call. -/
def SetShaderFloatVector (env : Env F) (name : String) (f : List (List F)) :
    Option Err × List (Ev F) :=
  if f.length = 0 then
    (if env.al_set_shader_float_vector name 0 none 0 then none
     else some (.errMsg ("failed to set float vector for \"" ++ name ++ "\"")),
     [.callSetFloatVector name 0 none 0])
  else
    let elems := f.length
    let components := f.headI.length
    let bytes := elems * components * 4
    if env.malloc bytes then
      let buf := applyWrites (List.replicate (elems * components) none) (marshalLoop id f)
      (if env.al_set_shader_float_vector name (toInt32 components) (some buf) (toInt32 elems)
       then none
       else some (.errMsg ("failed to set float vector for \"" ++ name ++ "\"")),
       [.allocScratch bytes true,
        .callSetFloatVector name (toInt32 components) (some buf) (toInt32 elems),
        .freeScratch])
    else
      (some (.errMsg "failed to allocate float vector"), [.allocScratch bytes false])

/-- Concatenation of the rows of a two-dimensional input, the order in which
the marshaling loop visits the scalars. -/
def rowConcat {α : Type} : List (List α) → List α
  | [] => []
  | r :: rs => r ++ rowConcat rs

/-- Pair each element of a list with its position, counting from `n`. -/
def idxFrom {β : Type} (n : Nat) : List β → List (Nat × β)
  | [] => []
  | a :: t => (n, a) :: idxFrom (n + 1) t

/-- Whether an event is a scratch-buffer release. -/
def isFreeScratch : Ev F → Bool
  | .freeScratch => true
  | _ => false

/-- The string `sub` occurs contiguously inside `s`. -/
def strContains (s sub : String) : Prop :=
  ∃ a b : String, s = a ++ sub ++ b

/-- Concrete native environment in which every native call succeeds. -/
def envAllOk : Env Unit where
  malloc := fun _ => true
  al_attach_shader_source := fun _ _ _ => true
  al_attach_shader_source_file := fun _ _ _ => true
  al_build_shader := fun _ => true
  al_get_shader_log := fun _ => ""
  al_get_shader_platform := fun _ => 0
  al_use_shader := fun _ => true
  al_set_shader_sampler := fun _ _ _ => true
  al_set_shader_matrix := fun _ _ => true
  al_set_shader_int := fun _ _ => true
  al_set_shader_float := fun _ _ => true
  al_set_shader_bool := fun _ _ => true
  al_set_shader_int_vector := fun _ _ _ _ => true
  al_set_shader_float_vector := fun _ _ _ _ => true

/-- Concrete native environment in which allocation succeeds but every
native call reports failure. -/
def envAllFail : Env Unit where
  malloc := fun _ => true
  al_attach_shader_source := fun _ _ _ => false
  al_attach_shader_source_file := fun _ _ _ => false
  al_build_shader := fun _ => false
  al_get_shader_log := fun _ => ""
  al_get_shader_platform := fun _ => 0
  al_use_shader := fun _ => false
  al_set_shader_sampler := fun _ _ _ => false
  al_set_shader_matrix := fun _ _ => false
  al_set_shader_int := fun _ _ => false
  al_set_shader_float := fun _ _ => false
  al_set_shader_bool := fun _ _ => false
  al_set_shader_int_vector := fun _ _ _ _ => false
  al_set_shader_float_vector := fun _ _ _ _ => false

/-- Concrete native environment in which `malloc` fails. -/
def envNoMalloc : Env Unit where
  malloc := fun _ => false
  al_attach_shader_source := fun _ _ _ => true
  al_attach_shader_source_file := fun _ _ _ => true
  al_build_shader := fun _ => true
  al_get_shader_log := fun _ => ""
  al_get_shader_platform := fun _ => 0
  al_use_shader := fun _ => true
  al_set_shader_sampler := fun _ _ _ => true
  al_set_shader_matrix := fun _ _ => true
  al_set_shader_int := fun _ _ => true
  al_set_shader_float := fun _ _ => true
  al_set_shader_bool := fun _ _ => true
  al_set_shader_int_vector := fun _ _ _ _ => true
  al_set_shader_float_vector := fun _ _ _ _ => true

/-- Claim C10: the exported reserved uniform-variable identifiers are exactly
the nine strings of shader.go lines 12-22: "al_pos", "al_color",
"al_projview_matrix", "al_tex", "al_texcoord", "al_tex_matrix",
"al_use_tex", "al_use_tex_matrix" and the user-attribute prefix
"al_user_attr_". -/
theorem shader_var_names_exact :
    SHADER_VAR_POS = "al_pos" ∧ SHADER_VAR_COLOR = "al_color"
    ∧ SHADER_VAR_PROJVIEW_MATRIX = "al_projview_matrix"
    ∧ SHADER_VAR_TEX = "al_tex" ∧ SHADER_VAR_TEXCOORD = "al_texcoord"
    ∧ SHADER_VAR_TEX_MATRIX = "al_tex_matrix"
    ∧ SHADER_VAR_USE_TEX = "al_use_tex"
    ∧ SHADER_VAR_USE_TEX_MATRIX = "al_use_tex_matrix"
    ∧ SHADER_VAR_USER_ATTR = "al_user_attr_" :=
  ⟨rfl, rfl, rfl, rfl, rfl, rfl, rfl, rfl, rfl⟩

/-- Claim C2 (amended): AttachSource, AttachSourceFile, Build, Log and
Platform invoked on a nil shader return the `ShaderIsNull` error with an
empty native-call trace; Destroy, by contrast, performs no nil check,
returns nothing, and unconditionally makes the native destroy call, even on
a nil shader. -/
theorem null_shader_fail_fast (env : Env F) (stype : Int) (source filename : String) :
    AttachSource env none stype source = (some ShaderIsNull, ([] : List (Ev F)))
    ∧ AttachSourceFile env none stype filename = (some ShaderIsNull, [])
    ∧ Build env none = (some ShaderIsNull, [])
    ∧ Log env none = (("", some ShaderIsNull), [])
    ∧ Platform env none = ((0, some ShaderIsNull), [])
    ∧ Destroy (F := F) none = [Ev.callDestroyShader none] :=
  ⟨rfl, rfl, rfl, rfl, rfl, rfl⟩

/-- Claim C2 (counterexample): Destroy invoked on a nil shader does attempt a
native call — its trace is the one-element list holding the native destroy
call — so the claim that every listed operation on a nil shader returns the
null-object error without attempting a native call is false for Destroy
(which, moreover, has no error result at all). -/
theorem destroy_nil_calls_native :
    Destroy (F := Unit) none = [Ev.callDestroyShader none]
    ∧ Destroy (F := Unit) none ≠ [] :=
  ⟨rfl, by decide⟩

/-- Claim C9: UseShader performs no nil check: any argument, nil included
(deactivation), is passed to the native `al_use_shader` call, the
`ShaderIsNull` error is never returned, and the returned error — the
activation-failure message — is present exactly when the native call
reports failure. -/
theorem use_shader_accepts_none (env : Env F) (s : Option Nat) :
    UseShader env s
      = (if env.al_use_shader s then none
         else some (.errMsg "failed to use shader"),
         [.callUseShader s])
    ∧ (UseShader env s).1 ≠ some ShaderIsNull
    ∧ ((UseShader env s).1 = none ↔ env.al_use_shader s = true) := by
  refine ⟨rfl, ?_, ?_⟩ <;> cases h : env.al_use_shader s <;> simp [UseShader, h, ShaderIsNull]

/-- Claim C3: on empty input both vector binders make exactly one native
call, with zero components, a nil buffer pointer and zero elements — no
allocation event appears in the trace, and the call is an error only when
the native side reports failure. -/
theorem empty_vector_clear_call (env : Env F) (name : String) :
    SetShaderIntVector env name []
      = (if env.al_set_shader_int_vector name 0 none 0 then none
         else some (.errMsg ("failed to set int vector for \"" ++ name ++ "\"")),
         [.callSetIntVector name 0 none 0])
    ∧ SetShaderFloatVector env name []
      = (if env.al_set_shader_float_vector name 0 none 0 then none
         else some (.errMsg ("failed to set float vector for \"" ++ name ++ "\"")),
         [.callSetFloatVector name 0 none 0]) :=
  ⟨rfl, rfl⟩

/-- Claim C7: SetShaderSampler with a nil texture handle returns the distinct
`BitmapIsNull` sentinel with no native call; with a non-nil handle it makes
the native call and returns an error — whose message carries the uniform
name — exactly when that call reports failure. -/
theorem sampler_null_texture_check (env : Env F) (name : String) (unit : Int) :
    SetShaderSampler env name none unit = (some Err.bitmapIsNull, ([] : List (Ev F)))
    ∧ (∀ b : Nat,
        SetShaderSampler env name (some b) unit
          = (if env.al_set_shader_sampler name b (toInt32 unit) then none
             else some (.errMsg ("failed to set shader sampler for \"" ++ name ++ "\"")),
             [.callSetSampler name b (toInt32 unit)]))
    ∧ (∀ b : Nat,
        (SetShaderSampler env name (some b) unit).1 = none
          ↔ env.al_set_shader_sampler name b (toInt32 unit) = true)
    ∧ Err.bitmapIsNull ≠ ShaderIsNull := by
  refine ⟨rfl, fun b => rfl, fun b => ?_, by decide⟩
  cases h : env.al_set_shader_sampler name b (toInt32 unit) <;>
    simp [SetShaderSampler, h]

theorem toInt32_eq_self (x : Int) (h1 : -(2 ^ 31) ≤ x) (h2 : x < 2 ^ 31) :
    toInt32 x = x := by
  simp only [toInt32]
  split <;> omega

theorem toInt32_coe (n : Nat) (h : n < 2 ^ 31) : toInt32 (n : Int) = (n : Int) := by
  apply toInt32_eq_self <;> omega

theorem idxFrom_append {β : Type} (ys : List β) :
    ∀ (xs : List β) (n : Nat),
      idxFrom n (xs ++ ys) = idxFrom n xs ++ idxFrom (n + xs.length) ys := by
  intro xs
  induction xs with
  | nil => intro n; simp [idxFrom]
  | cons a t ih =>
      intro n
      have h : n + (a :: t).length = n + 1 + t.length := by
        simp only [List.length_cons]
        omega
      rw [h]
      show (n, a) :: idxFrom (n + 1) (t ++ ys)
          = ((n, a) :: idxFrom (n + 1) t) ++ idxFrom (n + 1 + t.length) ys
      rw [List.cons_append, ih (n + 1)]

theorem idxFrom_length {β : Type} :
    ∀ (l : List β) (n : Nat), (idxFrom n l).length = l.length := by
  intro l
  induction l with
  | nil => intro n; rfl
  | cons a t ih => intro n; simp [idxFrom, ih]

theorem idxFrom_getElem? {β : Type} :
    ∀ (l : List β) (n k : Nat),
      (idxFrom n l)[k]? = l[k]?.map (fun v => (n + k, v)) := by
  intro l
  induction l with
  | nil => intro n k; simp [idxFrom]
  | cons a t ih =>
      intro n k
      cases k with
      | zero => simp [idxFrom]
      | succ j =>
          have h : n + 1 + j = n + (j + 1) := by omega
          simp [idxFrom, ih (n + 1) j, h]

theorem idxFrom_mem_lt {β : Type} :
    ∀ (l : List β) (n : Nat) (w : Nat × β),
      w ∈ idxFrom n l → n ≤ w.1 ∧ w.1 < n + l.length := by
  intro l
  induction l with
  | nil => intro n w h; simp [idxFrom] at h
  | cons a t ih =>
      intro n w h
      simp only [idxFrom, List.mem_cons] at h
      rcases h with h | h
      · subst h; simp
      · have := ih (n + 1) w h
        simp only [List.length_cons]
        omega

theorem idxFrom_zero_bound_iff {β : Type} (l : List β) (B : Nat) :
    (∀ w ∈ idxFrom 0 l, w.1 < B) ↔ l.length ≤ B := by
  constructor
  · intro h
    cases hl : l.length with
    | zero => omega
    | succ m =>
        have hm : m < l.length := by omega
        have hx : l[m]? = some l[m] := List.getElem?_eq_getElem hm
        have hidx : (idxFrom 0 l)[m]? = some (0 + m, l[m]) := by
          rw [idxFrom_getElem?, hx, Option.map_some']
        have hmem := List.getElem?_mem hidx
        have hlt := h _ hmem
        have hmB : m < B := by simpa using hlt
        omega
  · intro h w hw
    have := idxFrom_mem_lt l 0 w hw
    omega

theorem marshal_inner {α β : Type} (conv : α → β) :
    ∀ (slice : List α) (acc : List (Nat × β)) (n : Nat),
      slice.foldl (fun a e => (a.1 ++ [(a.2, conv e)], a.2 + 1)) (acc, n)
        = (acc ++ idxFrom n (slice.map conv), n + slice.length) := by
  intro slice
  induction slice with
  | nil => intro acc n; simp [idxFrom]
  | cons e t ih =>
      intro acc n
      simp only [List.foldl_cons, List.map_cons, idxFrom, List.length_cons]
      rw [ih (acc ++ [(n, conv e)]) (n + 1)]
      simp only [Prod.mk.injEq, List.append_assoc, List.singleton_append]
      exact ⟨trivial, by omega⟩

theorem marshal_outer {α β : Type} (conv : α → β) :
    ∀ (rows : List (List α)) (acc : List (Nat × β)) (n : Nat),
      rows.foldl
          (fun acc2 slice => slice.foldl (fun a e => (a.1 ++ [(a.2, conv e)], a.2 + 1)) acc2)
          (acc, n)
        = (acc ++ idxFrom n ((rowConcat rows).map conv), n + (rowConcat rows).length) := by
  intro rows
  induction rows with
  | nil => intro acc n; simp [rowConcat, idxFrom]
  | cons r rs ih =>
      intro acc n
      simp only [List.foldl_cons]
      rw [marshal_inner conv r acc n, ih]
      simp only [rowConcat, List.map_append, idxFrom_append, List.length_map,
        List.append_assoc, List.length_append, Prod.mk.injEq]
      exact ⟨trivial, by omega⟩

theorem marshalLoop_eq {α β : Type} (conv : α → β) (rows : List (List α)) :
    marshalLoop conv rows = idxFrom 0 ((rowConcat rows).map conv) := by
  unfold marshalLoop
  rw [marshal_outer]
  simp

theorem applyWrites_length {β : Type} :
    ∀ (ws : List (Nat × β)) (init : List (Option β)),
      (applyWrites init ws).length = init.length := by
  intro ws
  induction ws with
  | nil => intro init; rfl
  | cons w t ih =>
      intro init
      show (applyWrites (init.set w.1 (some w.2)) t).length = init.length
      rw [ih]
      simp

theorem applyWrites_idxFrom_lt {β : Type} :
    ∀ (l : List β) (init : List (Option β)) (n k : Nat), k < n →
      (applyWrites init (idxFrom n l))[k]? = init[k]? := by
  intro l
  induction l with
  | nil => intro init n k _; rfl
  | cons a t ih =>
      intro init n k hk
      show (applyWrites (init.set n (some a)) (idxFrom (n + 1) t))[k]? = init[k]?
      rw [ih _ (n + 1) k (by omega)]
      simp [List.getElem?_set_ne (by omega : n ≠ k)]

theorem applyWrites_idxFrom_get {β : Type} :
    ∀ (l : List β) (init : List (Option β)) (n k : Nat),
      n + l.length ≤ init.length → k < l.length →
      (applyWrites init (idxFrom n l))[n + k]? = l[k]?.map some := by
  intro l
  induction l with
  | nil => intro init n k _ hk; simp at hk
  | cons a t ih =>
      intro init n k hlen hk
      simp only [List.length_cons] at hlen
      show (applyWrites (init.set n (some a)) (idxFrom (n + 1) t))[n + k]? = _
      cases k with
      | zero =>
          simp only [Nat.add_zero]
          rw [applyWrites_idxFrom_lt t _ (n + 1) n (by omega)]
          have hn : n < init.length := by omega
          rw [List.getElem?_set_eq_of_lt (some a) (by simpa using hn)]
          simp
      | succ j =>
          have h1 : n + (j + 1) = (n + 1) + j := by omega
          have hlen' : (n + 1) + t.length ≤ (init.set n (some a)).length := by
            simp only [List.length_set]
            omega
          have hj : j < t.length := by simp only [List.length_cons] at hk; omega
          rw [h1, ih (init.set n (some a)) (n + 1) j hlen' hj]
          simp

theorem rowConcat_length {α : Type} :
    ∀ (rows : List (List α)), (rowConcat rows).length = (rows.map List.length).sum := by
  intro rows
  induction rows with
  | nil => rfl
  | cons r rs ih => simp [rowConcat, ih]

theorem rowConcat_length_rect {α : Type} (M : Nat) :
    ∀ (rows : List (List α)), (∀ r ∈ rows, r.length = M) →
      (rowConcat rows).length = rows.length * M := by
  intro rows
  induction rows with
  | nil => intro _; simp [rowConcat]
  | cons r rs ih =>
      intro h
      simp only [rowConcat, List.length_append, List.length_cons]
      rw [ih (fun x hx => h x (List.mem_cons_of_mem r hx)), h r (List.mem_cons_self r rs)]
      ring

theorem rowConcat_getElem_rect {α : Type} (M : Nat) :
    ∀ (rows : List (List α)) (r c : Nat) (row : List α) (x : α),
      (∀ l ∈ rows, l.length = M) → rows[r]? = some row → row[c]? = some x → c < M →
      (rowConcat rows)[r * M + c]? = some x := by
  intro rows
  induction rows with
  | nil => intro r c row x _ h _ _; simp at h
  | cons l ls ih =>
      intro r c row x hrect hr hc hcM
      have hl : l.length = M := hrect l (List.mem_cons_self l ls)
      cases r with
      | zero =>
          simp only [List.getElem?_cons_zero, Option.some.injEq] at hr
          subst hr
          simp only [rowConcat, Nat.zero_mul, Nat.zero_add]
          rw [List.getElem?_append_left (by omega)]
          exact hc
      | succ r' =>
          simp only [List.getElem?_cons_succ] at hr
          have heq : (r' + 1) * M + c = l.length + (r' * M + c) := by
            rw [hl, Nat.succ_mul]
            ring
          rw [heq]
          show (l ++ rowConcat ls)[l.length + (r' * M + c)]? = some x
          rw [List.getElem?_append_right (Nat.le_add_right _ _), Nat.add_sub_cancel_left]
          exact ih r' c row x (fun y hy => hrect y (List.mem_cons_of_mem l hy)) hr hc hcM

theorem strContains_wrap (pre post name : String) :
    strContains (pre ++ name ++ post) name :=
  ⟨pre, post, rfl⟩

theorem setShaderIntVector_nonempty (env : Env F) (name : String) (i : List (List Int))
    (hne : i ≠ []) (hmal : env.malloc (i.length * i.headI.length * 4) = true) :
    SetShaderIntVector env name i
      = (if env.al_set_shader_int_vector name (toInt32 (i.headI.length : Int))
            (some (applyWrites (List.replicate (i.length * i.headI.length) none)
              (marshalLoop toInt32 i))) (toInt32 (i.length : Int))
         then none
         else some (.errMsg ("failed to set int vector for \"" ++ name ++ "\"")),
         [.allocScratch (i.length * i.headI.length * 4) true,
          .callSetIntVector name (toInt32 (i.headI.length : Int))
            (some (applyWrites (List.replicate (i.length * i.headI.length) none)
              (marshalLoop toInt32 i))) (toInt32 (i.length : Int)),
          .freeScratch]) := by
  have h0 : ¬ i.length = 0 := by simpa [List.length_eq_zero] using hne
  unfold SetShaderIntVector
  rw [if_neg h0]
  simp [hmal]

theorem setShaderFloatVector_nonempty (env : Env F) (name : String) (f : List (List F))
    (hne : f ≠ []) (hmal : env.malloc (f.length * f.headI.length * 4) = true) :
    SetShaderFloatVector env name f
      = (if env.al_set_shader_float_vector name (toInt32 (f.headI.length : Int))
            (some (applyWrites (List.replicate (f.length * f.headI.length) none)
              (marshalLoop id f))) (toInt32 (f.length : Int))
         then none
         else some (.errMsg ("failed to set float vector for \"" ++ name ++ "\"")),
         [.allocScratch (f.length * f.headI.length * 4) true,
          .callSetFloatVector name (toInt32 (f.headI.length : Int))
            (some (applyWrites (List.replicate (f.length * f.headI.length) none)
              (marshalLoop id f))) (toInt32 (f.length : Int)),
          .freeScratch]) := by
  have h0 : ¬ f.length = 0 := by simpa [List.length_eq_zero] using hne
  unfold SetShaderFloatVector
  rw [if_neg h0]
  simp [hmal]

theorem marshal_buffer_spec {α β : Type} (conv : α → β) (rows : List (List α)) (M : Nat)
    (hrect : ∀ r ∈ rows, r.length = M) :
    (applyWrites (List.replicate (rows.length * M) (none : Option β))
        (marshalLoop conv rows)).length = rows.length * M
    ∧ ∀ (r c : Nat) (row : List α) (x : α),
        rows[r]? = some row → row[c]? = some x →
        (applyWrites (List.replicate (rows.length * M) (none : Option β))
            (marshalLoop conv rows))[r * M + c]? = some (some (conv x)) := by
  constructor
  · rw [applyWrites_length, List.length_replicate]
  · intro r c row x hr hc
    have hrlt : r < rows.length := by
      rcases List.getElem?_eq_some.mp hr with ⟨h, _⟩
      exact h
    have hrow : row ∈ rows := List.getElem?_mem hr
    have hrowlen : row.length = M := hrect row hrow
    have hclt : c < M := by
      rcases List.getElem?_eq_some.mp hc with ⟨h, _⟩
      omega
    have hk : r * M + c < rows.length * M := by
      have h1 : r * M + c < (r + 1) * M := by
        rw [Nat.succ_mul]
        omega
      have h2 : (r + 1) * M ≤ rows.length * M := Nat.mul_le_mul_right M hrlt
      omega
    have hlen : (rowConcat rows).length = rows.length * M := rowConcat_length_rect M rows hrect
    rw [marshalLoop_eq]
    have happ := applyWrites_idxFrom_get ((rowConcat rows).map conv)
      (List.replicate (rows.length * M) none) 0 (r * M + c)
      (by rw [List.length_map, hlen, List.length_replicate]; omega)
      (by rw [List.length_map, hlen]; exact hk)
    rw [Nat.zero_add] at happ
    rw [happ, List.getElem?_map, rowConcat_getElem_rect M rows r c row x hrect hr hc hclt]
    rfl

/-- Claim C1: for every non-empty rectangular input — every row of the same
length M as row 0 — whose scratch allocation succeeds, and whose dimensions
and (for the int variant) elements are representable in the 32-bit C target
type so that the Go-to-C conversions are value-preserving, the marshaler
fills the scratch buffer row-major: the scalar at position row*M+col is
input[row][col], and the native bind call receives componentsPerElement =
M, a pointer to that buffer, and elementCount = N; the integer and
floating-point variants perform this identically, differing only in scalar
type and destination native call. -/
theorem vector_marshal_row_major (env : Env F) (name : String) :
    (∀ (i : List (List Int)) (M : Nat),
      i ≠ [] → (∀ r ∈ i, r.length = M) →
      env.malloc (i.length * M * 4) = true →
      i.length < 2 ^ 31 → M < 2 ^ 31 →
      (∀ r ∈ i, ∀ x ∈ r, -(2 ^ 31) ≤ x ∧ x < 2 ^ 31) →
      ∃ buf : List (Option Int),
        (SetShaderIntVector env name i).2
          = [.allocScratch (i.length * M * 4) true,
             .callSetIntVector name (M : Int) (some buf) (i.length : Int),
             .freeScratch]
        ∧ buf.length = i.length * M
        ∧ ∀ (r c : Nat) (row : List Int) (x : Int),
            i[r]? = some row → row[c]? = some x →
            buf[r * M + c]? = some (some x))
    ∧ (∀ (f : List (List F)) (M : Nat),
      f ≠ [] → (∀ r ∈ f, r.length = M) →
      env.malloc (f.length * M * 4) = true →
      f.length < 2 ^ 31 → M < 2 ^ 31 →
      ∃ buf : List (Option F),
        (SetShaderFloatVector env name f).2
          = [.allocScratch (f.length * M * 4) true,
             .callSetFloatVector name (M : Int) (some buf) (f.length : Int),
             .freeScratch]
        ∧ buf.length = f.length * M
        ∧ ∀ (r c : Nat) (row : List F) (x : F),
            f[r]? = some row → row[c]? = some x →
            buf[r * M + c]? = some (some x)) := by
  constructor
  · intro i M hne hrect hmal hN hM hrange
    have hM0 : i.headI.length = M := by
      cases i with
      | nil => exact absurd rfl hne
      | cons r0 rest => exact hrect r0 (List.mem_cons_self r0 rest)
    have hunf := setShaderIntVector_nonempty env name i hne (by rw [hM0]; exact hmal)
    rw [hM0] at hunf
    refine ⟨applyWrites (List.replicate (i.length * M) none) (marshalLoop toInt32 i),
      ?_, (marshal_buffer_spec toInt32 i M hrect).1, ?_⟩
    · rw [hunf]
      simp only [toInt32_coe M hM, toInt32_coe i.length hN]
    · intro r c row x hr hc
      have hbuf := (marshal_buffer_spec toInt32 i M hrect).2 r c row x hr hc
      have hrowmem : row ∈ i := List.getElem?_mem hr
      have hxmem : x ∈ row := List.getElem?_mem hc
      have hx := hrange row hrowmem x hxmem
      rw [toInt32_eq_self x hx.1 hx.2] at hbuf
      exact hbuf
  · intro f M hne hrect hmal hN hM
    have hM0 : f.headI.length = M := by
      cases f with
      | nil => exact absurd rfl hne
      | cons r0 rest => exact hrect r0 (List.mem_cons_self r0 rest)
    have hunf := setShaderFloatVector_nonempty env name f hne (by rw [hM0]; exact hmal)
    rw [hM0] at hunf
    refine ⟨applyWrites (List.replicate (f.length * M) none) (marshalLoop id f),
      ?_, (marshal_buffer_spec id f M hrect).1, ?_⟩
    · rw [hunf]
      simp only [toInt32_coe M hM, toInt32_coe f.length hN]
    · intro r c row x hr hc
      exact (marshal_buffer_spec id f M hrect).2 r c row x hr hc

/-- Claim C1 (witness): the theorem applied to the concrete 2x2 inputs
[[1, 2], [3, 4]] (ints) and [[(), ()], [(), ()]] (opaque floats) with the
all-succeeding native environment. -/
theorem vector_marshal_row_major_witness :
    (∃ buf : List (Option Int),
      (SetShaderIntVector envAllOk "u" [[1, 2], [3, 4]]).2
        = [.allocScratch (2 * 2 * 4) true,
           .callSetIntVector "u" (2 : Int) (some buf) (2 : Int),
           .freeScratch]
      ∧ buf.length = 2 * 2
      ∧ ∀ (r c : Nat) (row : List Int) (x : Int),
          ([[1, 2], [3, 4]] : List (List Int))[r]? = some row → row[c]? = some x →
          buf[r * 2 + c]? = some (some x))
    ∧ (∃ buf : List (Option Unit),
      (SetShaderFloatVector envAllOk "u" [[(), ()], [(), ()]]).2
        = [.allocScratch (2 * 2 * 4) true,
           .callSetFloatVector "u" (2 : Int) (some buf) (2 : Int),
           .freeScratch]
      ∧ buf.length = 2 * 2
      ∧ ∀ (r c : Nat) (row : List Unit) (x : Unit),
          ([[(), ()], [(), ()]] : List (List Unit))[r]? = some row → row[c]? = some x →
          buf[r * 2 + c]? = some (some x)) := by
  constructor
  · exact (vector_marshal_row_major envAllOk "u").1 [[1, 2], [3, 4]] 2
      (by decide) (by decide) (by decide) (by decide) (by decide) (by decide)
  · exact (vector_marshal_row_major envAllOk "u").2 [[(), ()], [(), ()]] 2
      (by decide) (by decide) (by decide) (by decide) (by decide)

/-- Claim C4 (amended): on a non-empty input whose scratch allocation fails,
the vector binders return the distinct allocation errors — messages
"failed to allocate int vector" and "failed to allocate float vector"
respectively — and return with only the failed allocation in the trace, so
no native bind call is attempted. -/
theorem vector_alloc_failure (env : Env F) (name : String) :
    (∀ i : List (List Int), i ≠ [] →
      env.malloc (i.length * i.headI.length * 4) = false →
      SetShaderIntVector env name i
        = (some (.errMsg "failed to allocate int vector"),
           [.allocScratch (i.length * i.headI.length * 4) false]))
    ∧ (∀ f : List (List F), f ≠ [] →
      env.malloc (f.length * f.headI.length * 4) = false →
      SetShaderFloatVector env name f
        = (some (.errMsg "failed to allocate float vector"),
           [.allocScratch (f.length * f.headI.length * 4) false])) := by
  constructor
  · intro i hne hmal
    have h0 : ¬ i.length = 0 := by simpa [List.length_eq_zero] using hne
    unfold SetShaderIntVector
    rw [if_neg h0]
    simp [hmal]
  · intro f hne hmal
    have h0 : ¬ f.length = 0 := by simpa [List.length_eq_zero] using hne
    unfold SetShaderFloatVector
    rw [if_neg h0]
    simp [hmal]

/-- Claim C4 (witness): the amended theorem applied to the one-element
inputs [[1]] and [[()]] under the failing allocator. -/
theorem vector_alloc_failure_witness :
    SetShaderIntVector envNoMalloc "u" [[1]]
      = (some (.errMsg "failed to allocate int vector"), [.allocScratch (1 * 1 * 4) false])
    ∧ SetShaderFloatVector envNoMalloc "u" [[()]]
      = (some (.errMsg "failed to allocate float vector"),
         [.allocScratch (1 * 1 * 4) false]) := by
  constructor
  · exact (vector_alloc_failure envNoMalloc "u").1 [[1]] (by decide) (by decide)
  · exact (vector_alloc_failure envNoMalloc "u").2 [[()]] (by decide) (by decide)

/-- Claim C4 (counterexample): at the concrete failing-allocation input
[[1]], the returned error message is "failed to allocate int vector" — not
the message "failed to allocate vector buffer" stated by the claim — and
the float variant likewise returns "failed to allocate float vector". -/
theorem vector_alloc_failure_message :
    (SetShaderIntVector envNoMalloc "u" [[1]]).1
        = some (.errMsg "failed to allocate int vector")
    ∧ (SetShaderIntVector envNoMalloc "u" [[1]]).1
        ≠ some (.errMsg "failed to allocate vector buffer")
    ∧ (SetShaderFloatVector envNoMalloc "u" [[()]]).1
        = some (.errMsg "failed to allocate float vector")
    ∧ (SetShaderFloatVector envNoMalloc "u" [[()]]).1
        ≠ some (.errMsg "failed to allocate vector buffer") := by
  refine ⟨?_, ?_, ?_, ?_⟩ <;> decide

/-- Claim C5: on a non-empty input whose scratch allocation succeeds, both
vector binders produce the trace allocation, native bind call, release — in
that order, with exactly one release — whatever the native call reports
(the environment, hence the native verdict, is arbitrary), so the scratch
buffer is released exactly once before returning on every such exit path
and never retained. -/
theorem vector_scratch_released (env : Env F) (name : String) :
    (∀ i : List (List Int), i ≠ [] →
      env.malloc (i.length * i.headI.length * 4) = true →
      ∃ buf : List (Option Int),
        (SetShaderIntVector env name i).2
          = [.allocScratch (i.length * i.headI.length * 4) true,
             .callSetIntVector name (toInt32 (i.headI.length : Int)) (some buf)
               (toInt32 (i.length : Int)),
             .freeScratch]
        ∧ (SetShaderIntVector env name i).2.countP (fun e => isFreeScratch e) = 1)
    ∧ (∀ f : List (List F), f ≠ [] →
      env.malloc (f.length * f.headI.length * 4) = true →
      ∃ buf : List (Option F),
        (SetShaderFloatVector env name f).2
          = [.allocScratch (f.length * f.headI.length * 4) true,
             .callSetFloatVector name (toInt32 (f.headI.length : Int)) (some buf)
               (toInt32 (f.length : Int)),
             .freeScratch]
        ∧ (SetShaderFloatVector env name f).2.countP (fun e => isFreeScratch e) = 1) := by
  constructor
  · intro i hne hmal
    rw [setShaderIntVector_nonempty env name i hne hmal]
    exact ⟨_, rfl, by simp [isFreeScratch, List.countP_cons]⟩
  · intro f hne hmal
    rw [setShaderFloatVector_nonempty env name f hne hmal]
    exact ⟨_, rfl, by simp [isFreeScratch, List.countP_cons]⟩

/-- Claim C5 (witness): the theorem applied to the inputs [[5]] and [[()]]
under the environment where every native call fails — the scratch release
still appears exactly once, after the failing native bind call. -/
theorem vector_scratch_released_witness :
    (∃ buf : List (Option Int),
      (SetShaderIntVector envAllFail "u" [[5]]).2
        = [.allocScratch (1 * 1 * 4) true,
           .callSetIntVector "u" (toInt32 (1 : Int)) (some buf) (toInt32 (1 : Int)),
           .freeScratch]
      ∧ (SetShaderIntVector envAllFail "u" [[5]]).2.countP (fun e => isFreeScratch e) = 1)
    ∧ (∃ buf : List (Option Unit),
      (SetShaderFloatVector envAllFail "u" [[()]]).2
        = [.allocScratch (1 * 1 * 4) true,
           .callSetFloatVector "u" (toInt32 (1 : Int)) (some buf) (toInt32 (1 : Int)),
           .freeScratch]
      ∧ (SetShaderFloatVector envAllFail "u" [[()]]).2.countP (fun e => isFreeScratch e)
          = 1) := by
  constructor
  · exact (vector_scratch_released envAllFail "u").1 [[5]] (by decide) (by decide)
  · exact (vector_scratch_released envAllFail "u").2 [[()]] (by decide) (by decide)

/-- Claim C6: on a non-empty input whose rows do not all share row 0's
length M (with allocation succeeding), SetShaderIntVector and
SetShaderFloatVector still allocate exactly N*M scalars (N*M*4 bytes,
buffer of N*M cells) while the loop writes the converted elements at
consecutive indices 0, 1, 2, ... in row-concatenation order, so the number
of writes is the sum of all row lengths, and every write index is within
the N*M buffer exactly when that sum is at most N*M; in particular, on the
int input [[0], [1, 2]] and the float input [[()], [(), ()]] — second row
longer than row 0 — some write lands at an index not below the allocated
N*M = 2. -/
theorem vector_ragged_oob (env : Env F) (name : String) :
    (∀ i : List (List Int), i ≠ [] →
      ¬ (∀ r ∈ i, r.length = i.headI.length) →
      env.malloc (i.length * i.headI.length * 4) = true →
      ∃ buf : List (Option Int),
        (SetShaderIntVector env name i).2
          = [.allocScratch (i.length * i.headI.length * 4) true,
             .callSetIntVector name (toInt32 (i.headI.length : Int)) (some buf)
               (toInt32 (i.length : Int)),
             .freeScratch]
        ∧ buf.length = i.length * i.headI.length
        ∧ marshalLoop toInt32 i = idxFrom 0 ((rowConcat i).map toInt32)
        ∧ (marshalLoop toInt32 i).length = (i.map List.length).sum
        ∧ ((∀ w ∈ marshalLoop toInt32 i, w.1 < i.length * i.headI.length)
             ↔ (i.map List.length).sum ≤ i.length * i.headI.length))
    ∧ (∀ f : List (List F), f ≠ [] →
      ¬ (∀ r ∈ f, r.length = f.headI.length) →
      env.malloc (f.length * f.headI.length * 4) = true →
      ∃ buf : List (Option F),
        (SetShaderFloatVector env name f).2
          = [.allocScratch (f.length * f.headI.length * 4) true,
             .callSetFloatVector name (toInt32 (f.headI.length : Int)) (some buf)
               (toInt32 (f.length : Int)),
             .freeScratch]
        ∧ buf.length = f.length * f.headI.length
        ∧ marshalLoop id f = idxFrom 0 ((rowConcat f).map id)
        ∧ (marshalLoop id f).length = (f.map List.length).sum
        ∧ ((∀ w ∈ marshalLoop id f, w.1 < f.length * f.headI.length)
             ↔ (f.map List.length).sum ≤ f.length * f.headI.length))
    ∧ (∃ w ∈ marshalLoop toInt32 [[0], [1, 2]],
        ¬ w.1 < ([[0], [1, 2]] : List (List Int)).length
            * ([[0], [1, 2]] : List (List Int)).headI.length)
    ∧ (∃ w ∈ marshalLoop (id : Unit → Unit) [[()], [(), ()]],
        ¬ w.1 < ([[()], [(), ()]] : List (List Unit)).length
            * ([[()], [(), ()]] : List (List Unit)).headI.length) := by
  refine ⟨?_, ?_, ?_, ?_⟩
  · intro i hne _ hmal
    rw [setShaderIntVector_nonempty env name i hne hmal]
    refine ⟨_, rfl, ?_, marshalLoop_eq toInt32 i, ?_, ?_⟩
    · rw [applyWrites_length, List.length_replicate]
    · rw [marshalLoop_eq, idxFrom_length, List.length_map, rowConcat_length]
    · rw [marshalLoop_eq]
      have hiff := idxFrom_zero_bound_iff ((rowConcat i).map toInt32)
        (i.length * i.headI.length)
      rw [List.length_map, rowConcat_length] at hiff
      exact hiff
  · intro f hne _ hmal
    rw [setShaderFloatVector_nonempty env name f hne hmal]
    refine ⟨_, rfl, ?_, marshalLoop_eq id f, ?_, ?_⟩
    · rw [applyWrites_length, List.length_replicate]
    · rw [marshalLoop_eq, idxFrom_length, List.length_map, rowConcat_length]
    · rw [marshalLoop_eq]
      have hiff := idxFrom_zero_bound_iff ((rowConcat f).map id)
        (f.length * f.headI.length)
      rw [List.length_map, rowConcat_length] at hiff
      exact hiff
  · decide
  · decide

/-- Claim C6 (witness): the universal parts applied to the concrete ragged
inputs [[0], [1, 2]] (ints) and [[()], [(), ()]] (opaque floats) — row 0
of length 1, second row of length 2 — under the all-succeeding
environment. -/
theorem vector_ragged_oob_witness :
    (∃ buf : List (Option Int),
      (SetShaderIntVector envAllOk "u" [[0], [1, 2]]).2
        = [.allocScratch (2 * 1 * 4) true,
           .callSetIntVector "u" (toInt32 (1 : Int)) (some buf) (toInt32 (2 : Int)),
           .freeScratch]
      ∧ buf.length = 2 * 1
      ∧ marshalLoop toInt32 [[0], [1, 2]]
          = idxFrom 0 ((rowConcat [[0], [1, 2]]).map toInt32)
      ∧ (marshalLoop toInt32 [[0], [1, 2]]).length
          = (([[0], [1, 2]] : List (List Int)).map List.length).sum
      ∧ ((∀ w ∈ marshalLoop toInt32 [[0], [1, 2]], w.1 < 2 * 1)
           ↔ (([[0], [1, 2]] : List (List Int)).map List.length).sum ≤ 2 * 1))
    ∧ (∃ buf : List (Option Unit),
      (SetShaderFloatVector envAllOk "u" [[()], [(), ()]]).2
        = [.allocScratch (2 * 1 * 4) true,
           .callSetFloatVector "u" (toInt32 (1 : Int)) (some buf) (toInt32 (2 : Int)),
           .freeScratch]
      ∧ buf.length = 2 * 1
      ∧ marshalLoop id [[()], [(), ()]]
          = idxFrom 0 ((rowConcat [[()], [(), ()]]).map id)
      ∧ (marshalLoop id [[()], [(), ()]]).length
          = (([[()], [(), ()]] : List (List Unit)).map List.length).sum
      ∧ ((∀ w ∈ marshalLoop id [[()], [(), ()]], w.1 < 2 * 1)
           ↔ (([[()], [(), ()]] : List (List Unit)).map List.length).sum ≤ 2 * 1)) := by
  constructor
  · exact (vector_ragged_oob envAllOk "u").1 [[0], [1, 2]] (by decide) (by decide) (by decide)
  · exact (vector_ragged_oob envAllOk "u").2.1 [[()], [(), ()]]
      (by decide) (by decide) (by decide)

/-- Claim C8: whenever a uniform binder's native call reports failure, the
returned error message contains the uniform name: every message-carrying
error returned by SetShaderSampler (non-nil texture), SetShaderMatrix,
SetShaderInt, SetShaderFloat, SetShaderBool contains the name, every
message-carrying error of the two vector binders other than the allocation
error contains the name, and every message-carrying error of
AttachSourceFile on a non-nil shader contains the file path. -/
theorem native_failure_errors_carry_name (env : Env F) :
    (∀ (name : String) (b : Nat) (unit : Int) (e : String),
        (SetShaderSampler env name (some b) unit).1 = some (.errMsg e) → strContains e name)
    ∧ (∀ (name : String) (m : Option Nat) (e : String),
        (SetShaderMatrix env name m).1 = some (.errMsg e) → strContains e name)
    ∧ (∀ (name : String) (i : Int) (e : String),
        (SetShaderInt env name i).1 = some (.errMsg e) → strContains e name)
    ∧ (∀ (name : String) (x : F) (e : String),
        (SetShaderFloat env name x).1 = some (.errMsg e) → strContains e name)
    ∧ (∀ (name : String) (b : Bool) (e : String),
        (SetShaderBool env name b).1 = some (.errMsg e) → strContains e name)
    ∧ (∀ (name : String) (i : List (List Int)) (e : String),
        (SetShaderIntVector env name i).1 = some (.errMsg e) →
          e = "failed to allocate int vector" ∨ strContains e name)
    ∧ (∀ (name : String) (f : List (List F)) (e : String),
        (SetShaderFloatVector env name f).1 = some (.errMsg e) →
          e = "failed to allocate float vector" ∨ strContains e name)
    ∧ (∀ (h : Nat) (stype : Int) (filename : String) (e : String),
        (AttachSourceFile env (some h) stype filename).1 = some (.errMsg e) →
          strContains e filename) := by
  refine ⟨?_, ?_, ?_, ?_, ?_, ?_, ?_, ?_⟩
  · intro name b unit e h
    simp only [SetShaderSampler] at h
    split at h
    · simp at h
    · simp only [Option.some.injEq, Err.errMsg.injEq] at h
      subst h
      exact strContains_wrap _ _ _
  · intro name m e h
    simp only [SetShaderMatrix] at h
    split at h
    · simp at h
    · simp only [Option.some.injEq, Err.errMsg.injEq] at h
      subst h
      exact strContains_wrap _ _ _
  · intro name i e h
    simp only [SetShaderInt] at h
    split at h
    · simp at h
    · simp only [Option.some.injEq, Err.errMsg.injEq] at h
      subst h
      exact strContains_wrap _ _ _
  · intro name x e h
    simp only [SetShaderFloat] at h
    split at h
    · simp at h
    · simp only [Option.some.injEq, Err.errMsg.injEq] at h
      subst h
      exact strContains_wrap _ _ _
  · intro name b e h
    simp only [SetShaderBool] at h
    split at h
    · simp at h
    · simp only [Option.some.injEq, Err.errMsg.injEq] at h
      subst h
      exact strContains_wrap _ _ _
  · intro name i e h
    by_cases hlen : i.length = 0
    · unfold SetShaderIntVector at h
      rw [if_pos hlen] at h
      split at h
      · simp at h
      · simp only [Option.some.injEq, Err.errMsg.injEq] at h
        subst h
        exact Or.inr (strContains_wrap _ _ _)
    · by_cases hmal : env.malloc (i.length * i.headI.length * 4) = true
      · rw [setShaderIntVector_nonempty env name i
          (by simpa [List.length_eq_zero] using hlen) hmal] at h
        split at h
        · simp at h
        · simp only [Option.some.injEq, Err.errMsg.injEq] at h
          subst h
          exact Or.inr (strContains_wrap _ _ _)
      · unfold SetShaderIntVector at h
        rw [if_neg hlen] at h
        simp only [Bool.not_eq_true] at hmal
        simp only [hmal, Bool.false_eq_true, if_false, Option.some.injEq,
          Err.errMsg.injEq] at h
        exact Or.inl h.symm
  · intro name f e h
    by_cases hlen : f.length = 0
    · unfold SetShaderFloatVector at h
      rw [if_pos hlen] at h
      split at h
      · simp at h
      · simp only [Option.some.injEq, Err.errMsg.injEq] at h
        subst h
        exact Or.inr (strContains_wrap _ _ _)
    · by_cases hmal : env.malloc (f.length * f.headI.length * 4) = true
      · rw [setShaderFloatVector_nonempty env name f
          (by simpa [List.length_eq_zero] using hlen) hmal] at h
        split at h
        · simp at h
        · simp only [Option.some.injEq, Err.errMsg.injEq] at h
          subst h
          exact Or.inr (strContains_wrap _ _ _)
      · unfold SetShaderFloatVector at h
        rw [if_neg hlen] at h
        simp only [Bool.not_eq_true] at hmal
        simp only [hmal, Bool.false_eq_true, if_false, Option.some.injEq,
          Err.errMsg.injEq] at h
        exact Or.inl h.symm
  · intro hd stype filename e h
    simp only [AttachSourceFile] at h
    split at h
    · simp at h
    · simp only [Option.some.injEq, Err.errMsg.injEq] at h
      subst h
      exact strContains_wrap _ _ _

/-- Claim C8 (witness): under the all-failing environment, SetShaderInt on
uniform "brightness" returns the message carrying that name, and the
theorem extracts the containment. -/
theorem native_failure_errors_carry_name_witness :
    (SetShaderInt envAllFail "brightness" 3).1
        = some (.errMsg "failed to set shader int for \"brightness\"")
    ∧ strContains "failed to set shader int for \"brightness\"" "brightness" := by
  constructor
  · decide
  · exact (native_failure_errors_carry_name envAllFail).2.2.1 "brightness" 3
      "failed to set shader int for \"brightness\"" (by decide)

end Allegro
